import Mathlib

set_option maxRecDepth 65536

/-!
Verification of the a-one-bakeries-app maintenance scripts.

The repository is a collection of standalone Python scripts that read a whole
source file of a mobile application, perform literal text substitutions, and
write the file back.  We embed the text operations the scripts use
(`in`, `str.replace` with and without a count, `str.rstrip`, `str.strip`,
`str.endswith`, line scans) as executable functions on `List Char`, embed the
individual scripts as pure functions from the input file content to the
written content, printed status lines and exit code, and embed the
idempotent-patcher contract of the specification (section 4.1) as a separate
definition so that the spec's testable properties can be compared with the
behaviour of the actual scripts.

Conventions: file contents are `List Char` (obtained from string literals via
`String.data`).  All patterns occurring in this repository are nonempty, so
the empty-pattern corner of Python's `str.replace` (which inserts the
replacement between every pair of characters) is not modelled; on an empty
pattern our `replaceAll`/`countOcc` leave the content unchanged / return 0.
-/

namespace Bakeries

/-- Python's substring test `pat in s` on character lists. -/
def containsSub (pat : List Char) : List Char → Bool
  | [] => pat.isPrefixOf []
  | c :: rest => pat.isPrefixOf (c :: rest) || containsSub pat rest

/-- Python's `s.count(pat)` for a nonempty pattern: number of
non-overlapping occurrences, scanning left to right. -/
def countOcc (pat : List Char) : List Char → Nat
  | [] => 0
  | c :: rest =>
    if pat ≠ [] ∧ pat.isPrefixOf (c :: rest) then
      1 + countOcc pat ((c :: rest).drop pat.length)
    else
      countOcc pat rest
termination_by s => s.length
decreasing_by
  · simp only [List.length_drop, List.length_cons]
    have : 1 ≤ pat.length := List.length_pos.mpr (by tauto)
    omega
  · simp

/-- Python's `s.replace(pat, rep, 1)`: replace the first (leftmost)
occurrence of `pat`, if any. -/
def replaceFirst (pat rep : List Char) : List Char → List Char
  | [] => if pat.isPrefixOf [] then rep else []
  | c :: rest =>
    if pat.isPrefixOf (c :: rest) then rep ++ (c :: rest).drop pat.length
    else c :: replaceFirst pat rep rest

/-- Python's `s.replace(pat, rep)` for a nonempty pattern: replace all
non-overlapping occurrences, scanning left to right. -/
def replaceAll (pat rep : List Char) : List Char → List Char
  | [] => []
  | c :: rest =>
    if pat ≠ [] ∧ pat.isPrefixOf (c :: rest) then
      rep ++ replaceAll pat rep ((c :: rest).drop pat.length)
    else
      c :: replaceAll pat rep rest
termination_by s => s.length
decreasing_by
  · simp only [List.length_drop, List.length_cons]
    have : 1 ≤ pat.length := List.length_pos.mpr (by tauto)
    omega
  · simp

/-- Whitespace in the sense of Python's `str.strip`/`str.rstrip` (the files
patched by this repository are ASCII, so only the ASCII whitespace
characters are modelled). -/
def pyIsSpace (c : Char) : Bool :=
  c = ' ' || c = '\t' || c = '\n' || c = '\r' || c = '\x0b' || c = '\x0c'

/-- Python's `s.rstrip()`: drop trailing whitespace. -/
def rstrip (s : List Char) : List Char :=
  (s.reverse.dropWhile pyIsSpace).reverse

/-- Python's `s.strip()`: drop leading and trailing whitespace. -/
def pyStrip (s : List Char) : List Char :=
  (rstrip s).dropWhile pyIsSpace

/-- Python's `s.endswith(suffix)` specialised to a one-character suffix,
as used by `add_km_db_methods.py` (`content.endswith('\x7d')`). -/
def endsWithChar (s : List Char) (c : Char) : Bool :=
  s.getLast? = some c

/-! ### Basic properties of the string primitives -/

theorem containsSub_iff (pat s : List Char) : containsSub pat s = true ↔ pat <:+: s := by
  induction s with
  | nil =>
    simp [containsSub, List.isPrefixOf_iff_prefix]
  | cons c rest ih =>
    simp [containsSub, List.infix_cons_iff, ih, List.isPrefixOf_iff_prefix]

theorem containsSub_of_countOcc_pos (pat : List Char) :
    ∀ s : List Char, 1 ≤ countOcc pat s → containsSub pat s = true := by
  intro s
  induction s using countOcc.induct pat with
  | case1 => simp [countOcc]
  | case2 c rest h _ =>
    intro _
    simp only [containsSub, Bool.or_eq_true]
    exact Or.inl h.2
  | case3 c rest h ih =>
    intro hc
    rw [countOcc] at hc
    simp only [if_neg h] at hc
    simp only [containsSub, Bool.or_eq_true]
    exact Or.inr (ih hc)

theorem rep_infix_replaceFirst (pat rep : List Char) :
    ∀ s : List Char, containsSub pat s = true → rep <:+: replaceFirst pat rep s := by
  intro s
  induction s with
  | nil =>
    intro h
    simp only [containsSub] at h
    simp [replaceFirst, h]
  | cons c rest ih =>
    intro h
    by_cases hp : pat.isPrefixOf (c :: rest) = true
    · simpa [replaceFirst, hp] using (List.prefix_append rep _).isInfix
    · have h' : containsSub pat rest = true := by
        simp only [containsSub, Bool.or_eq_true] at h
        tauto
      simpa [replaceFirst, hp] using List.infix_cons (ih h')

theorem rep_infix_replaceAll (pat rep : List Char) :
    ∀ s : List Char, pat ≠ [] → containsSub pat s = true → rep <:+: replaceAll pat rep s := by
  intro s
  induction s using replaceAll.induct pat rep with
  | case1 =>
    intro hne h
    simp only [containsSub] at h
    simp only [List.isPrefixOf_iff_prefix, decide_eq_true_eq, List.prefix_nil] at h
    exact absurd h hne
  | case2 c rest h _ =>
    intro _ _
    simpa [replaceAll, h] using (List.prefix_append rep _).isInfix
  | case3 c rest h ih =>
    intro hne hc
    have h' : containsSub pat rest = true := by
      simp only [containsSub, Bool.or_eq_true] at hc
      rcases hc with hc | hc
      · exact absurd ⟨hne, hc⟩ h
      · exact hc
    rw [replaceAll, if_neg h]
    exact List.infix_cons (ih hne h')

theorem replaceAll_of_not_contains (pat rep : List Char) :
    ∀ s : List Char, containsSub pat s = false → replaceAll pat rep s = s := by
  intro s
  induction s using replaceAll.induct pat rep with
  | case1 => intro _; simp [replaceAll]
  | case2 c rest h _ =>
    intro hc
    simp only [containsSub, Bool.or_eq_false_iff] at hc
    exact absurd h.2 (by simp [hc.1])
  | case3 c rest h ih =>
    intro hc
    simp only [containsSub, Bool.or_eq_false_iff] at hc
    rw [replaceAll, if_neg h, ih hc.2]

theorem replaceFirst_at_first (pat rep : List Char) :
    ∀ pre post : List Char,
      (∀ i, i < pre.length → pat.isPrefixOf ((pre ++ pat ++ post).drop i) = false) →
      replaceFirst pat rep (pre ++ pat ++ post) = pre ++ rep ++ post := by
  intro pre
  induction pre with
  | nil =>
    intro post _
    have hp : pat.isPrefixOf (pat ++ post) = true :=
      List.isPrefixOf_iff_prefix.mpr (List.prefix_append pat post)
    match pat, hp with
    | [], _ => cases post <;> simp [replaceFirst]
    | a :: pat', hp => simp [replaceFirst, hp, List.drop_left]
  | cons c pre ih =>
    intro post hpre
    have h0 : pat.isPrefixOf (c :: (pre ++ pat ++ post)) = false := by
      simpa using hpre 0 (by simp)
    have h0' : ¬ (pat.isPrefixOf (c :: (pre ++ pat ++ post)) = true) := by
      rw [h0]; simp
    have hrest : ∀ i, i < pre.length → pat.isPrefixOf ((pre ++ pat ++ post).drop i) = false := by
      intro i hi
      simpa [List.drop_succ_cons] using hpre (i + 1) (by simp; omega)
    calc replaceFirst pat rep ((c :: pre) ++ pat ++ post)
        = c :: replaceFirst pat rep (pre ++ pat ++ post) := by
          simp only [List.cons_append]
          rw [replaceFirst, if_neg h0']
      _ = (c :: pre) ++ rep ++ post := by rw [ih post hrest]; simp

theorem count_rstrip (a : Char) (ha : pyIsSpace a = false) (s : List Char) :
    List.count a (rstrip s) = List.count a s := by
  have hsplit : List.takeWhile pyIsSpace s.reverse ++ List.dropWhile pyIsSpace s.reverse
      = s.reverse := List.takeWhile_append_dropWhile _ _
  have hzero : List.count a (List.takeWhile pyIsSpace s.reverse) = 0 := by
    refine List.count_eq_zero_of_not_mem fun hmem => ?_
    have := List.mem_takeWhile_imp hmem
    rw [ha] at this
    exact Bool.false_ne_true this
  have : List.count a s.reverse
      = List.count a (List.takeWhile pyIsSpace s.reverse)
        + List.count a (List.dropWhile pyIsSpace s.reverse) := by
    conv_lhs => rw [← hsplit]
    exact List.count_append a _ _
  rw [hzero, Nat.zero_add] at this
  calc List.count a (rstrip s)
      = List.count a (List.dropWhile pyIsSpace s.reverse) := List.count_reverse a _
    _ = List.count a s.reverse := this.symm
    _ = List.count a s := List.count_reverse a s

/-! ### The behaviour of one script run

Each script reads the whole content of a hardcoded file, transforms it and
(possibly) writes it back, printing status lines.  `written = none` means the
script terminated without writing the file.  `exitCode` is the process exit
status (0 for normal termination, as produced by `exit(1)` / `exit(0)` /
falling off the end of the script). -/

structure RunResult where
  written : Option (List Char)
  prints : List (List Char)
  exitCode : Nat
deriving DecidableEq

/-! ### add_expense_notes_coins.py -/

/-- Locator `old_line` of add_expense_notes_coins.py. -/
def expense_old_line : String := "        amount REAL NOT NULL,"

/-- Replacement `new_lines` of add_expense_notes_coins.py. -/
def expense_new_lines : String :=
  "        notes REAL NOT NULL,\n        coins REAL NOT NULL,\n        amount REAL NOT NULL,"

/-- Content transformation of add_expense_notes_coins.py:
`content.replace(old_line, new_lines, 1)`. -/
def add_expense_notes_coins_transform (content : List Char) : List Char :=
  replaceFirst expense_old_line.data expense_new_lines.data content

/-- Whole run of add_expense_notes_coins.py: unconditionally writes the
transformed content back and prints a success line. -/
def add_expense_notes_coins_run (content : List Char) : RunResult :=
  { written := some (add_expense_notes_coins_transform content)
    prints := [("✅ Added notes and coins fields to expenses table!").data]
    exitCode := 0 }

/-! ### fix_db_path_production.py -/

/-- Locator `old_text` of fix_db_path_production.py. -/
def fix_db_path_old_text : String :=
  "    // Get the database file path\n    String path = join(await getDatabasesPath(), \x27a_one_bakeries.db\x27);"

/-- Replacement `new_text` of fix_db_path_production.py. -/
def fix_db_path_new_text : String :=
  "    // CRITICAL FIX: Use getApplicationDocumentsDirectory() for writable location\n    // This ensures database is writable in both debug and release builds\n    final directory = await getApplicationDocumentsDirectory();\n    String path = join(directory.path, \x27a_one_bakeries.db\x27);"

/-- Whole run of fix_db_path_production.py: if `old_text` occurs in the
content it replaces every occurrence (`content.replace(old_text, new_text)`)
and writes the file back; otherwise it prints a failure message
(`print("Looking for:", old_text[:50])` prints the first 50 characters) and
terminates without writing.  Both paths exit with status 0. -/
def fix_db_path_production_run (content : List Char) : RunResult :=
  if containsSub fix_db_path_old_text.data content then
    { written := some (replaceAll fix_db_path_old_text.data fix_db_path_new_text.data content)
      prints := [("✅ Fixed database path to use writable directory!").data]
      exitCode := 0 }
  else
    { written := none
      prints := [("❌ Could not find target location").data,
                 ("Looking for: ").data ++ fix_db_path_old_text.data.take 50]
      exitCode := 0 }

/-! ### fix_vehicle_lookup.py -/

/-- Locator `old_code` of fix_vehicle_lookup.py. -/
def vehicle_old_code : String :=
  "            // Get linked vehicle\n            if (orders.first.vehicleId != null) \x7b\n              vehicle = await _dbHelper.getVehicle(orders.first.vehicleId!);\n            \x7d"

/-- Replacement `new_code` of fix_vehicle_lookup.py. -/
def vehicle_new_code : String :=
  "            // Vehicle info would be loaded here if needed\n            // For now, just using driver name"

/-- Content transformation of fix_vehicle_lookup.py:
`content.replace(old_code, new_code)`. -/
def fix_vehicle_lookup_transform (content : List Char) : List Char :=
  replaceAll vehicle_old_code.data vehicle_new_code.data content

/-- Whole run of fix_vehicle_lookup.py: unconditionally writes the
transformed content back. -/
def fix_vehicle_lookup_run (content : List Char) : RunResult :=
  { written := some (fix_vehicle_lookup_transform content)
    prints := [("✓ Fixed driver_vehicle_orders_report_screen.dart").data]
    exitCode := 0 }

/-! ### make_notes_optional.py -/

/-- First locator of make_notes_optional.py (label text). -/
def notes_label_old : String := "labelText: \x27Notes (Paper Money)\x27,"

/-- First replacement of make_notes_optional.py. -/
def notes_label_new : String := "labelText: \x27Notes (Paper Money) - Optional\x27,"

/-- Second locator `old_validation` of make_notes_optional.py. -/
def old_validation : String :=
  "                validator: (value) \x7b\n                  if (value == null || value.trim().isEmpty) \x7b\n                    return \x27Please enter notes amount\x27;\n                  \x7d\n                  final amount = double.tryParse(value.trim());\n                  if (amount == null || amount < 0) \x7b\n                    return \x27Please enter valid amount\x27;\n                  \x7d\n                  return null;\n                \x7d,"

/-- Second replacement `new_validation` of make_notes_optional.py. -/
def new_validation : String :=
  "                validator: (value) \x7b\n                  if (value != null && value.trim().isNotEmpty) \x7b\n                    final amount = double.tryParse(value.trim());\n                    if (amount == null || amount < 0) \x7b\n                      return \x27Please enter valid amount\x27;\n                    \x7d\n                  \x7d\n                  // Check if at least notes or coins has a value\n                  final notes = double.tryParse(value?.trim() ?? \x270\x27) ?? 0.0;\n                  final coins = _calculateCoins();\n                  if (notes == 0 && coins == 0) \x7b\n                    return \x27Enter notes or coins\x27;\n                  \x7d\n                  return null;\n                \x7d,"

/-- Third locator of make_notes_optional.py (notes parsing). -/
def notes_parse_old : String := "notes: double.parse(_notesController.text.trim()),"

/-- Third replacement of make_notes_optional.py. -/
def notes_parse_new : String := "notes: double.tryParse(_notesController.text.trim()) ?? 0.0,"

/-- Fourth locator of make_notes_optional.py (total preview condition). -/
def preview_old : String :=
  "              // Total Preview\n              if (_notesController.text.isNotEmpty &&\n                  double.tryParse(_notesController.text) != null)"

/-- Fourth replacement of make_notes_optional.py. -/
def preview_new : String :=
  "              // Total Preview\n              if (total > 0)"

/-- Content transformation of make_notes_optional.py: four successive
unconditional `content.replace(old, new)` calls, in source order. -/
def make_notes_optional_transform (content : List Char) : List Char :=
  replaceAll preview_old.data preview_new.data
    (replaceAll notes_parse_old.data notes_parse_new.data
      (replaceAll old_validation.data new_validation.data
        (replaceAll notes_label_old.data notes_label_new.data content)))

/-- Whole run of make_notes_optional.py: unconditionally writes the
transformed content back and prints a success line (there is no check that
any locator was found). -/
def make_notes_optional_run (content : List Char) : RunResult :=
  { written := some (make_notes_optional_transform content)
    prints := [("✅ Made notes field optional in expense dialog!").data]
    exitCode := 0 }

/-! ### add_km_db_methods.py -/

/-- Import-line locator of add_km_db_methods.py. -/
def km_import_old : String := "import \x27package:a_one_bakeries_app/models/supplier_model.dart\x27;"

/-- Import-line replacement of add_km_db_methods.py. -/
def km_import_new : String := "import \x27package:a_one_bakeries_app/models/supplier_model.dart\x27;\nimport \x27package:a_one_bakeries_app/models/km_record_model.dart\x27;\nimport \x27package:a_one_bakeries_app/models/service_record_model.dart\x27;"

/-- Guard substring checked by add_km_db_methods.py before the import
insertion. -/
def km_guard : String := "km_record_model.dart"

/-- Block `km_methods` of add_km_db_methods.py (the KM tracking methods
appended before the final closing brace). -/
def km_methods : String := "\n  // \x3d\x3d\x3d\x3d\x3d\x3d\x3d\x3d\x3d\x3d\x3d\x3d\x3d\x3d\x3d\x3d\x3d\x3d\x3d\x3d\x3d\x3d\x3d\x3d\x3d\x3d\x3d\x3d\x3d\x3d\x3d\x3d\x3d\x3d\x3d\x3d\x3d\x3d\x3d\x3d\x3d\x3d\x3d\x3d\x3d\x3d\x3d\x3d\x3d\x3d\x3d\x3d\x3d\x3d\x3d\x3d\x3d\x3d\x3d\x3d\x3d\x3d\x3d\x3d\x3d\x3d\x3d\x3d\x3d\x3d\x3d\x3d\x3d\x3d\x3d\x3d\n  // KM TRACKING OPERATIONS\n  // \x3d\x3d\x3d\x3d\x3d\x3d\x3d\x3d\x3d\x3d\x3d\x3d\x3d\x3d\x3d\x3d\x3d\x3d\x3d\x3d\x3d\x3d\x3d\x3d\x3d\x3d\x3d\x3d\x3d\x3d\x3d\x3d\x3d\x3d\x3d\x3d\x3d\x3d\x3d\x3d\x3d\x3d\x3d\x3d\x3d\x3d\x3d\x3d\x3d\x3d\x3d\x3d\x3d\x3d\x3d\x3d\x3d\x3d\x3d\x3d\x3d\x3d\x3d\x3d\x3d\x3d\x3d\x3d\x3d\x3d\x3d\x3d\x3d\x3d\x3d\x3d\n\n  /// Add a new KM record and update vehicle\x27s current KM\n  Future<int> addKmRecord(KmRecord record) async \x7b\n    final db \x3d await database;\n    \n    int recordId \x3d 0;\n    await db.transaction((txn) async \x7b\n      // Insert the KM record\n      recordId \x3d await txn.insert(\x27km_records\x27, record.toMap());\n      \n      // Update vehicle\x27s current KM\n      await txn.update(\n        \x27vehicles\x27,\n        \x7b\n          \x27currentKm\x27: record.kmReading,\n          \x27updatedAt\x27: DateTime.now().toIso8601String(),\n        \x7d,\n        where: \x27id \x3d ?\x27,\n        whereArgs: [record.vehicleId],\n      );\n    \x7d);\n    \n    return recordId;\n  \x7d\n\n  /// Get all KM records for a vehicle\n  Future<List<KmRecord>> getVehicleKmRecords(int vehicleId) async \x7b\n    final db \x3d await database;\n    final maps \x3d await db.query(\n      \x27km_records\x27,\n      where: \x27vehicleId \x3d ?\x27,\n      whereArgs: [vehicleId],\n      orderBy: \x27recordedDate DESC\x27,\n    );\n    return List.generate(maps.length, (i) \x3d> KmRecord.fromMap(maps[i]));\n  \x7d\n\n  /// Get latest KM record for a vehicle\n  Future<KmRecord?> getLatestKmRecord(int vehicleId) async \x7b\n    final db \x3d await database;\n    final maps \x3d await db.query(\n      \x27km_records\x27,\n      where: \x27vehicleId \x3d ?\x27,\n      whereArgs: [vehicleId],\n      orderBy: \x27recordedDate DESC\x27,\n      limit: 1,\n    );\n    if (maps.isEmpty) return null;\n    return KmRecord.fromMap(maps.first);\n  \x7d\n\n  /// Update vehicle\x27s current KM\n  Future<int> updateVehicleKm(int vehicleId, int newKm) async \x7b\n    final db \x3d await database;\n    return await db.update(\n      \x27vehicles\x27,\n      \x7b\n        \x27currentKm\x27: newKm,\n        \x27updatedAt\x27: DateTime.now().toIso8601String(),\n      \x7d,\n      where: \x27id \x3d ?\x27,\n      whereArgs: [vehicleId],\n    );\n  \x7d\n\n  // \x3d\x3d\x3d\x3d\x3d\x3d\x3d\x3d\x3d\x3d\x3d\x3d\x3d\x3d\x3d\x3d\x3d\x3d\x3d\x3d\x3d\x3d\x3d\x3d\x3d\x3d\x3d\x3d\x3d\x3d\x3d\x3d\x3d\x3d\x3d\x3d\x3d\x3d\x3d\x3d\x3d\x3d\x3d\x3d\x3d\x3d\x3d\x3d\x3d\x3d\x3d\x3d\x3d\x3d\x3d\x3d\x3d\x3d\x3d\x3d\x3d\x3d\x3d\x3d\x3d\x3d\x3d\x3d\x3d\x3d\x3d\x3d\x3d\x3d\x3d\x3d\n  // SERVICE RECORD OPERATIONS\n  // \x3d\x3d\x3d\x3d\x3d\x3d\x3d\x3d\x3d\x3d\x3d\x3d\x3d\x3d\x3d\x3d\x3d\x3d\x3d\x3d\x3d\x3d\x3d\x3d\x3d\x3d\x3d\x3d\x3d\x3d\x3d\x3d\x3d\x3d\x3d\x3d\x3d\x3d\x3d\x3d\x3d\x3d\x3d\x3d\x3d\x3d\x3d\x3d\x3d\x3d\x3d\x3d\x3d\x3d\x3d\x3d\x3d\x3d\x3d\x3d\x3d\x3d\x3d\x3d\x3d\x3d\x3d\x3d\x3d\x3d\x3d\x3d\x3d\x3d\x3d\x3d\n\n  /// Add a service record and update vehicle\x27s service KM\n  Future<int> addServiceRecord(ServiceRecord record) async \x7b\n    final db \x3d await database;\n    \n    int recordId \x3d 0;\n    await db.transaction((txn) async \x7b\n      // Insert the service record\n      recordId \x3d await txn.insert(\x27service_records\x27, record.toMap());\n      \n      // Get vehicle\x27s service interval\n      final vehicleMaps \x3d await txn.query(\n        \x27vehicles\x27,\n        where: \x27id \x3d ?\x27,\n        whereArgs: [record.vehicleId],\n      );\n      \n      if (vehicleMaps.isNotEmpty) \x7b\n        final serviceInterval \x3d vehicleMaps.first[\x27serviceIntervalKm\x27] as int? ?? 10000;\n        final nextServiceKm \x3d record.serviceKm + serviceInterval;\n        \n        // Update vehicle\x27s service KM\n        await txn.update(\n          \x27vehicles\x27,\n          \x7b\n            \x27lastServiceKm\x27: record.serviceKm,\n            \x27nextServiceKm\x27: nextServiceKm,\n            \x27updatedAt\x27: DateTime.now().toIso8601String(),\n          \x7d,\n          where: \x27id \x3d ?\x27,\n          whereArgs: [record.vehicleId],\n        );\n      \x7d\n    \x7d);\n    \n    return recordId;\n  \x7d\n\n  /// Get all service records for a vehicle\n  Future<List<ServiceRecord>> getVehicleServiceRecords(int vehicleId) async \x7b\n    final db \x3d await database;\n    final maps \x3d await db.query(\n      \x27service_records\x27,\n      where: \x27vehicleId \x3d ?\x27,\n      whereArgs: [vehicleId],\n      orderBy: \x27serviceDate DESC\x27,\n    );\n    return List.generate(maps.length, (i) \x3d> ServiceRecord.fromMap(maps[i]));\n  \x7d\n\n  /// Update vehicle\x27s service interval\n  Future<int> updateVehicleServiceInterval(int vehicleId, int intervalKm) async \x7b\n    final db \x3d await database;\n    \n    // Get current lastServiceKm\n    final maps \x3d await db.query(\n      \x27vehicles\x27,\n      where: \x27id \x3d ?\x27,\n      whereArgs: [vehicleId],\n    );\n    \n    if (maps.isEmpty) return 0;\n    \n    final lastServiceKm \x3d maps.first[\x27lastServiceKm\x27] as int? ?? 0;\n    final nextServiceKm \x3d lastServiceKm + intervalKm;\n    \n    return await db.update(\n      \x27vehicles\x27,\n      \x7b\n        \x27serviceIntervalKm\x27: intervalKm,\n        \x27nextServiceKm\x27: nextServiceKm,\n        \x27updatedAt\x27: DateTime.now().toIso8601String(),\n      \x7d,\n      where: \x27id \x3d ?\x27,\n      whereArgs: [vehicleId],\n    );\n  \x7d\n\n  /// Get vehicles due for service\n  Future<List<Vehicle>> getVehiclesDueForService() async \x7b\n    final db \x3d await database;\n    final maps \x3d await db.rawQuery(\n      \x27SELECT * FROM vehicles WHERE currentKm >\x3d nextServiceKm ORDER BY currentKm DESC\x27\n    );\n    return List.generate(maps.length, (i) \x3d> Vehicle.fromMap(maps[i]));\n  \x7d\n\n  /// Get vehicles approaching service (within threshold KM)\n  Future<List<Vehicle>> getVehiclesApproachingService(int thresholdKm) async \x7b\n    final db \x3d await database;\n    final maps \x3d await db.rawQuery(\n      \x27SELECT * FROM vehicles WHERE (nextServiceKm - currentKm) <\x3d ? AND (nextServiceKm - currentKm) > 0 ORDER BY (nextServiceKm - currentKm) ASC\x27,\n      [thresholdKm]\n    );\n    return List.generate(maps.length, (i) \x3d> Vehicle.fromMap(maps[i]));\n  \x7d\n\n  /// Get KM records within date range\n  Future<List<KmRecord>> getKmRecordsByDateRange(DateTime startDate, DateTime endDate) async \x7b\n    final db \x3d await database;\n    final maps \x3d await db.query(\n      \x27km_records\x27,\n      where: \x27recordedDate BETWEEN ? AND ?\x27,\n      whereArgs: [startDate.toIso8601String(), endDate.toIso8601String()],\n      orderBy: \x27recordedDate DESC\x27,\n    );\n    return List.generate(maps.length, (i) \x3d> KmRecord.fromMap(maps[i]));\n  \x7d\n\n  /// Get service records within date range\n  Future<List<ServiceRecord>> getServiceRecordsByDateRange(DateTime startDate, DateTime endDate) async \x7b\n    final db \x3d await database;\n    final maps \x3d await db.query(\n      \x27service_records\x27,\n      where: \x27serviceDate BETWEEN ? AND ?\x27,\n      whereArgs: [startDate.toIso8601String(), endDate.toIso8601String()],\n      orderBy: \x27serviceDate DESC\x27,\n    );\n    return List.generate(maps.length, (i) \x3d> ServiceRecord.fromMap(maps[i]));\n  \x7d\n"

/-- Content transformation of add_km_db_methods.py.  The guard
`\x27km_record_model.dart\x27 not in content` protects only the import
replacement; the `km_methods` block is then appended unconditionally:
the content is right-stripped, and `km_methods` is inserted before a final
closing brace when one is present, else appended at the end. -/
def add_km_db_methods_transform (content : List Char) : List Char :=
  let c1 := if containsSub km_guard.data content = false
            then replaceAll km_import_old.data km_import_new.data content
            else content
  let c2 := rstrip c1
  if endsWithChar c2 '\x7d' then c2.dropLast ++ km_methods.data ++ ('\n' :: '\x7d' :: [])
  else c2 ++ km_methods.data

/-- Whole run of add_km_db_methods.py: unconditionally writes the
transformed content back and prints several status lines. -/
def add_km_db_methods_run (content : List Char) : RunResult :=
  { written := some (add_km_db_methods_transform content)
    prints := [("\u2705 Added KM tracking methods to database_helper.dart").data,
               ("   - addKmRecord() - Add KM record and update vehicle").data,
               ("   - getVehicleKmRecords() - Get all KM records for vehicle").data,
               ("   - addServiceRecord() - Add service and update next service KM").data,
               ("   - getVehicleServiceRecords() - Get service history").data,
               ("   - getVehiclesDueForService() - Get vehicles needing service").data,
               ("   - getVehiclesApproachingService() - Get vehicles approaching service").data,
               ("   - And more...").data]
    exitCode := 0 }

/-! ### remove_duplicates.py

This script works on `f.readlines()`: the list of lines of the file, each
line keeping its terminating newline.  We model the run directly on that
list of lines; the written content is the concatenation of the kept lines
(`f.writelines`). -/

/-- Index of the first line satisfying `p`, scanning left to right
(a `for`/`break` loop over `enumerate(lines)`). -/
def findFirstIdx (p : List Char → Bool) : List (List Char) → Option Nat
  | [] => none
  | l :: rest => if p l then some 0 else (findFirstIdx p rest).map (· + 1)

/-- Marker substring of the KM tracking section. -/
def km_marker : String := "KM TRACKING OPERATIONS"

/-- Method-signature substring searched for by the second scan. -/
def addKmRecord_sig : String := "Future<int> addKmRecord"

/-- Second scan of remove_duplicates.py over `range(first + 1, len(lines))`.
The source tests `\x27KM TRACKING OPERATIONS\x27 in line`, where `line` is
the stale loop variable left over from the first scan (the marker line
itself), not `lines[i]`; this bug is preserved faithfully: `staleLine` is
passed in by the caller as the line found by the first scan. -/
def secondScan (lines : List (List Char)) (staleLine : List Char) (i : Nat) : Option Nat :=
  if i < lines.length then
    if containsSub km_marker.data staleLine || containsSub addKmRecord_sig.data (lines.getD i []) then
      some i
    else
      secondScan lines staleLine (i + 1)
  else none
termination_by lines.length - i

/-- Whole run of remove_duplicates.py on the list of input lines.  If no
line contains the KM marker it prints a failure line and exits with status
1; if the (buggy) second scan finds nothing it prints a success line and
exits 0 without writing; otherwise it keeps `lines[:second]`, appends a
closing-brace line when the last kept line does not strip to a brace,
writes the concatenation back and exits 0. -/
def remove_duplicates_run (lines : List (List Char)) : RunResult :=
  match findFirstIdx (fun l => containsSub km_marker.data l) lines with
  | none =>
    { written := none
      prints := [("❌ Could not find KM tracking section").data]
      exitCode := 1 }
  | some first =>
    match secondScan lines (lines.getD first []) (first + 1) with
    | none =>
      { written := none
        prints := [("✅ No duplicates found").data]
        exitCode := 0 }
    | some second =>
      let kept := lines.take second
      let output_lines :=
        if pyStrip (kept.getLastD []) = ('\x7d' :: []) then kept
        else kept ++ [('\x7d' :: '\n' :: [])]
      { written := some output_lines.flatten
        prints := [("✅ Removed duplicate KM methods starting at line ").data
                     ++ (Nat.repr (second + 1)).data,
                   ("   File reduced from ").data ++ (Nat.repr lines.length).data
                     ++ (" to ").data ++ (Nat.repr output_lines.length).data
                     ++ (" lines").data]
        exitCode := 0 }

/-! ### fix_expenses_table.py

Also a line-based script (`f.readlines()` / `f.writelines`). -/

/-- Marker for the start of the expenses table. -/
def create_expenses_marker : String := "CREATE TABLE expenses("

/-- Marker after which the two new column lines are inserted. -/
def description_marker : String := "description TEXT NOT NULL,"

/-- First inserted line (CRLF-terminated in the source). -/
def notes_field_line : String := "        notes REAL NOT NULL,\r\n"

/-- Second inserted line (CRLF-terminated in the source). -/
def coins_field_line : String := "        coins REAL NOT NULL,\r\n"

/-- Loop of fix_expenses_table.py over the input lines, carrying the two
flags `in_expenses_table` and `added_fields`.  Every line is first copied
to the output; a line containing the CREATE-TABLE marker sets the first
flag; while the first flag is set and the second is not, a line containing
the description marker is followed by the two new column lines, after
which `added_fields` is set and `in_expenses_table` is cleared. -/
def fixExpensesLoop : List (List Char) → Bool → Bool → List (List Char)
  | [], _, _ => []
  | l :: rest, inTable, added =>
    let inTable' := if containsSub create_expenses_marker.data l then true else inTable
    if inTable' && containsSub description_marker.data l && !added then
      l :: notes_field_line.data :: coins_field_line.data :: fixExpensesLoop rest false true
    else
      l :: fixExpensesLoop rest inTable' added

/-- Content transformation of fix_expenses_table.py on the input lines. -/
def fix_expenses_table_transform (lines : List (List Char)) : List (List Char) :=
  fixExpensesLoop lines false false

/-- Whole run of fix_expenses_table.py: unconditionally writes the
transformed lines back. -/
def fix_expenses_table_run (lines : List (List Char)) : RunResult :=
  { written := some (fix_expenses_table_transform lines).flatten
    prints := [("✅ Added notes and coins to expenses table!").data]
    exitCode := 0 }

/-- Declarative insertion point of fix_expenses_table.py: the index of the
first line that contains the description marker and occurs at or after the
first line containing the CREATE-TABLE marker; `none` when no such pair of
markers exists. -/
def expensesInsertPos : List (List Char) → Option Nat
  | [] => none
  | l :: rest =>
    if containsSub create_expenses_marker.data l then
      if containsSub description_marker.data l then some 0
      else (findFirstIdx (fun s => containsSub description_marker.data s) rest).map (· + 1)
    else
      (expensesInsertPos rest).map (· + 1)

/-! ### The idempotent text patcher of the specification

Modelled from the spec: section 4.1 describes a reusable patch-application
routine that the repository itself never implements (each script inlines ad
hoc replacements instead).  Its contract: input is content, a locator, a
replacement and an idempotency guard; output is new content and a `changed`
flag; if the guard is already present the content is returned unchanged
with `changed = false`; if the locator is not found the operation fails
with `PatchTargetNotFound` and the original content is returned
unmodified; if the locator matches more than once while the policy expects
exactly one match it fails with `AmbiguousMatch`; otherwise the patch is
applied exactly once. -/

/-- Patch descriptor of spec section 4.1: a locator, a replacement, an
idempotency guard, and the single-match policy flag. -/
structure Patch where
  locator : List Char
  replacement : List Char
  guard : List Char
  expectUnique : Bool
deriving DecidableEq

/-- Failure taxonomy of spec sections 4.1 and 7. -/
inductive PatchError where
  | targetNotFound
  | ambiguousMatch
deriving DecidableEq

/-- Result of one patch application: the (possibly new) content, the
`changed` flag, and the failure condition if any. -/
structure PatchResult where
  content : List Char
  changed : Bool
  error : Option PatchError
deriving DecidableEq

/-- Modelled from the spec: the patch-application routine of section 4.1
(no such routine exists in the source tree; the scripts inline their
replacements without guard or match-count checks). -/
def applyPatch (p : Patch) (c : List Char) : PatchResult :=
  if containsSub p.guard c then
    { content := c, changed := false, error := none }
  else if containsSub p.locator c = false then
    { content := c, changed := false, error := some .targetNotFound }
  else if p.expectUnique = true ∧ 2 ≤ countOcc p.locator c then
    { content := c, changed := false, error := some .ambiguousMatch }
  else
    { content := replaceFirst p.locator p.replacement c, changed := true, error := none }

/-- Guard given for the add_expense_notes_coins patch in the example of
spec section 8. -/
def spec_notes_guard : String := "notes REAL NOT NULL,"

/-- Patch descriptor for add_expense_notes_coins.py under the spec's
contract: its locator and replacement, the guard of the spec's section 8
example, and the first-occurrence policy the script actually uses
(`count=1`, so it does not expect a unique match). -/
def add_expense_patch : Patch :=
  { locator := expense_old_line.data
    replacement := expense_new_lines.data
    guard := spec_notes_guard.data
    expectUnique := false }

/-- Patch descriptor for add_expense_notes_coins.py under a single-match
policy, for the ambiguity property of spec section 8. -/
def add_expense_patch_unique : Patch :=
  { locator := expense_old_line.data
    replacement := expense_new_lines.data
    guard := spec_notes_guard.data
    expectUnique := true }

/-! ### Further helper lemmas -/

theorem countOcc_nil_pat (s : List Char) : countOcc [] s = 0 := by
  induction s with
  | nil => simp [countOcc]
  | cons c rest ih => rw [countOcc, if_neg (by simp)]; exact ih

theorem countOcc_append_self (pat s : List Char) (h : pat ≠ []) :
    countOcc pat (pat ++ s) = 1 + countOcc pat s := by
  match pat, h with
  | c :: rest, _ =>
    have hpre : (c :: rest).isPrefixOf (c :: (rest ++ s)) = true := by
      rw [← List.cons_append]
      exact List.isPrefixOf_iff_prefix.mpr (List.prefix_append _ s)
    have hdrop : (c :: (rest ++ s)).drop (c :: rest).length = s := by
      rw [← List.cons_append, List.drop_left]
    rw [List.cons_append, countOcc, if_pos ⟨by simp, hpre⟩, hdrop]

theorem countOcc_self (pat : List Char) (h : pat ≠ []) : countOcc pat pat = 1 := by
  match pat, h with
  | c :: rest, _ =>
    rw [countOcc,
        if_pos ⟨by simp, List.isPrefixOf_iff_prefix.mpr List.prefix_rfl⟩]
    have hdrop : (c :: rest).drop (c :: rest).length = [] := List.drop_length _
    rw [hdrop, countOcc]

theorem findFirstIdx_some (p : List Char → Bool) :
    ∀ (lines : List (List Char)) (i : Nat), findFirstIdx p lines = some i →
      i < lines.length ∧ p (lines.getD i []) = true := by
  intro lines
  induction lines with
  | nil => intro i h; simp [findFirstIdx] at h
  | cons l rest ih =>
    intro i h
    by_cases hp : p l = true
    · simp [findFirstIdx, hp] at h
      subst h
      simpa using hp
    · simp [findFirstIdx, hp] at h
      obtain ⟨j, hj, rfl⟩ := h
      obtain ⟨h1, h2⟩ := ih j hj
      constructor
      · simpa using h1
      · simpa using h2

theorem getLastD_take (lines : List (List Char)) :
    ∀ i : Nat, i < lines.length → (lines.take (i + 1)).getLastD [] = lines.getD i [] := by
  induction lines with
  | nil => intro i h; simp at h
  | cons l rest ih =>
    intro i h
    cases i with
    | zero => simp
    | succ j =>
      have hj : j < rest.length := by simpa using h
      have hcons : ∃ x xs, rest.take (j + 1) = x :: xs := by
        cases rest with
        | nil => simp at hj
        | cons r0 r' => exact ⟨r0, r'.take j, by simp [List.take_succ_cons]⟩
      obtain ⟨x, xs, hx⟩ := hcons
      calc ((l :: rest).take (j + 2)).getLastD []
          = (l :: rest.take (j + 1)).getLastD [] := by simp [List.take_succ_cons]
        _ = (rest.take (j + 1)).getLastD l := by rw [List.getLastD_cons]
        _ = (rest.take (j + 1)).getLastD [] := by
            rw [hx, List.getLastD_eq_getLast?, List.getLastD_eq_getLast?,
                List.getLast?_eq_getLast (x :: xs) (by simp)]
            rfl
        _ = rest.getD j [] := ih j hj
        _ = (l :: rest).getD (j + 1) [] := by simp

/-! ### Claim C1: idempotence of patch application -/

/-- C1 (counterexample): the raw transformation of
add_expense_notes_coins.py is not idempotent.  On the content consisting of
the locator line alone, the first run produces the replacement block, which
still contains the locator line, so a second run inserts the two new column
lines again instead of returning its input unchanged. -/
theorem C1_counterexample :
    add_expense_notes_coins_transform
        (add_expense_notes_coins_transform (expense_old_line.data))
      ≠ add_expense_notes_coins_transform (expense_old_line.data) := by
  decide

/-- C1 (amended): with the idempotency guard of the spec's section 8
example in place, patch application for the add_expense_notes_coins patch
is idempotent: for every content, the content after two applications equals
the content after one, and the second application reports
`changed = false`.  The raw script transformation, which lacks the guard,
is not idempotent (see the counterexample). -/
theorem C1_guarded_patch_idempotent (c : List Char) :
    (applyPatch add_expense_patch ((applyPatch add_expense_patch c).content)).content
        = (applyPatch add_expense_patch c).content
      ∧ (applyPatch add_expense_patch ((applyPatch add_expense_patch c).content)).changed
        = false := by
  have hguard_rep : containsSub spec_notes_guard.data expense_new_lines.data = true := by
    decide
  by_cases hg : containsSub spec_notes_guard.data c = true
  · simp [applyPatch, add_expense_patch, hg]
  · have hg' : containsSub spec_notes_guard.data c = false := by
      simpa using hg
    by_cases hl : containsSub expense_old_line.data c = true
    · have hrep : expense_new_lines.data
          <:+: replaceFirst expense_old_line.data expense_new_lines.data c :=
        rep_infix_replaceFirst _ _ c hl
      have hout : containsSub spec_notes_guard.data
          (replaceFirst expense_old_line.data expense_new_lines.data c) = true :=
        (containsSub_iff _ _).mpr (((containsSub_iff _ _).mp hguard_rep).trans hrep)
      simp [applyPatch, add_expense_patch, hg', hl, hout]
    · have hl' : containsSub expense_old_line.data c = false := by
        simpa using hl
      simp [applyPatch, add_expense_patch, hg', hl']

/-! ### Claim C2: idempotency-guard precheck -/

/-- Helper for C2: the `km_methods` block is appended unconditionally, so
content already containing the guard is still changed.  The proof counts
occurrences of the slash character, which the appended block contains but
trailing whitespace (the only other thing the transformation may remove)
does not. -/
theorem km_guard_still_changes (c : List Char)
    (hg : containsSub km_guard.data c = true) :
    add_km_db_methods_transform c ≠ c := by
  intro hEq
  have hslash_space : pyIsSpace '/' = false := by decide
  have hslash_km : 1 ≤ List.count '/' km_methods.data :=
    List.count_pos_iff.mpr (by decide)
  have hcount_rstrip : List.count '/' (rstrip c) = List.count '/' c :=
    count_rstrip '/' hslash_space c
  have hg' : (containsSub km_guard.data c = false) = False := by
    simp [hg]
  have hkey : List.count '/' (add_km_db_methods_transform c)
      = List.count '/' (rstrip c) + List.count '/' km_methods.data := by
    simp only [add_km_db_methods_transform, hg', if_false]
    by_cases he : endsWithChar (rstrip c) '\x7d' = true
    · rw [if_pos he]
      have hne : rstrip c ≠ [] := by
        intro h0
        rw [h0] at he
        simp [endsWithChar] at he
      have hlast : (rstrip c).getLast hne = '\x7d' := by
        have hq := List.getLast?_eq_getLast (rstrip c) hne
        simp only [endsWithChar, decide_eq_true_eq] at he
        rw [hq] at he
        exact Option.some_inj.mp he
      have hdecomp : (rstrip c).dropLast ++ ['\x7d'] = rstrip c := by
        have hd := List.dropLast_append_getLast hne
        rwa [hlast] at hd
      have hcount_c2 : List.count '/' (rstrip c)
          = List.count '/' ((rstrip c).dropLast) := by
        conv_lhs => rw [← hdecomp]
        rw [List.count_append]
        simp
      rw [List.count_append, List.count_append, hcount_c2]
      simp
    · rw [if_neg he]
      rw [List.count_append]
  rw [hEq, hcount_rstrip] at hkey
  omega

/-- C2 (counterexample): when the guard `km_record_model.dart` is already
present in the content, add_km_db_methods.py does not return the content
unchanged: the `km_methods` block is appended unconditionally.  Shown on
the content consisting of the guard substring alone. -/
theorem C2_counterexample :
    add_km_db_methods_transform (("km_record_model.dart").data)
      ≠ ("km_record_model.dart").data :=
  km_guard_still_changes (("km_record_model.dart").data) (by decide)

/-- C2 (amended): under the spec's patcher contract, a present guard makes
the operation return the content unchanged with `changed = false`; in
add_km_db_methods.py, however, the guard protects only the import
insertion, and the `km_methods` block is appended unconditionally, so for
every content containing the guard the script still changes the content. -/
theorem C2_guard_behaviour :
    (∀ (p : Patch) (c : List Char), containsSub p.guard c = true →
        applyPatch p c = { content := c, changed := false, error := none })
      ∧ (∀ c : List Char, containsSub km_guard.data c = true →
          add_km_db_methods_transform c ≠ c) := by
  constructor
  · intro p c hg
    simp [applyPatch, hg]
  · exact km_guard_still_changes

/-- C2 (witness): the amended statement instantiated: the spec's patcher
leaves content containing the guard unchanged, and add_km_db_methods.py
still changes content consisting of the guard substring followed by a
newline. -/
theorem C2_guard_behaviour_witness :
    applyPatch add_expense_patch (spec_notes_guard.data)
        = { content := spec_notes_guard.data, changed := false, error := none }
      ∧ add_km_db_methods_transform (("km_record_model.dart\n").data)
          ≠ ("km_record_model.dart\n").data :=
  ⟨C2_guard_behaviour.1 add_expense_patch (spec_notes_guard.data) (by decide),
   C2_guard_behaviour.2 (("km_record_model.dart\n").data) (by decide)⟩

/-! ### Claim C3: missing-locator failure -/

/-- C3 (counterexample): make_notes_optional.py does not fail when its
locators are absent: on content that contains none of its four locators it
silently writes the content back unchanged, prints its success line and
exits 0 — there is no failure condition at all. -/
theorem C3_counterexample :
    (make_notes_optional_run (("x").data)).written = some (("x").data)
      ∧ (make_notes_optional_run (("x").data)).prints
          = [("✅ Made notes field optional in expense dialog!").data]
      ∧ (make_notes_optional_run (("x").data)).exitCode = 0 := by
  refine ⟨?_, rfl, rfl⟩
  have h1 : make_notes_optional_transform (("x").data) = ("x").data := by
    unfold make_notes_optional_transform
    rw [replaceAll_of_not_contains notes_label_old.data _ _ (by decide)]
    rw [replaceAll_of_not_contains old_validation.data _ _ (by decide)]
    rw [replaceAll_of_not_contains notes_parse_old.data _ _ (by decide)]
    rw [replaceAll_of_not_contains preview_old.data _ _ (by decide)]
  simp [make_notes_optional_run, h1]

/-- C3 (amended): under the spec's patcher contract a missing locator
yields `PatchTargetNotFound` with the content returned unmodified.  The
source scripts do not implement this: fix_db_path_production.py detects
the missing locator but only prints a failure message and skips the write,
exiting 0, while make_notes_optional.py silently writes the unchanged
content back with a success message. -/
theorem C3_missing_locator :
    (∀ (p : Patch) (c : List Char),
        containsSub p.guard c = false → containsSub p.locator c = false →
        applyPatch p c
          = { content := c, changed := false, error := some .targetNotFound })
      ∧ (∀ c : List Char, containsSub fix_db_path_old_text.data c = false →
          fix_db_path_production_run c
            = { written := none
                prints := [("❌ Could not find target location").data,
                           ("Looking for: ").data ++ fix_db_path_old_text.data.take 50]
                exitCode := 0 })
      ∧ (∀ c : List Char,
          containsSub notes_label_old.data c = false →
          containsSub old_validation.data c = false →
          containsSub notes_parse_old.data c = false →
          containsSub preview_old.data c = false →
          make_notes_optional_run c
            = { written := some c
                prints := [("✅ Made notes field optional in expense dialog!").data]
                exitCode := 0 }) := by
  refine ⟨?_, ?_, ?_⟩
  · intro p c hg hl
    simp [applyPatch, hg, hl]
  · intro c hl
    simp [fix_db_path_production_run, hl]
  · intro c h1 h2 h3 h4
    have ht : make_notes_optional_transform c = c := by
      unfold make_notes_optional_transform
      rw [replaceAll_of_not_contains _ _ _ h1, replaceAll_of_not_contains _ _ _ h2,
          replaceAll_of_not_contains _ _ _ h3, replaceAll_of_not_contains _ _ _ h4]
    simp [make_notes_optional_run, ht]

/-- C3 (witness): the amended statement instantiated on the one-character
content `x`, which contains none of the locators. -/
theorem C3_missing_locator_witness :
    applyPatch add_expense_patch (("x").data)
        = { content := ("x").data, changed := false, error := some .targetNotFound }
      ∧ fix_db_path_production_run (("x").data)
          = { written := none
              prints := [("❌ Could not find target location").data,
                         ("Looking for: ").data ++ fix_db_path_old_text.data.take 50]
              exitCode := 0 }
      ∧ make_notes_optional_run (("x").data)
          = { written := some (("x").data)
              prints := [("✅ Made notes field optional in expense dialog!").data]
              exitCode := 0 } :=
  ⟨C3_missing_locator.1 add_expense_patch (("x").data) (by decide) (by decide),
   C3_missing_locator.2.1 (("x").data) (by decide),
   C3_missing_locator.2.2 (("x").data) (by decide) (by decide) (by decide) (by decide)⟩

/-! ### Claim C4: ambiguous-match failure -/

/-- C4 (counterexample): on content containing the locator twice,
add_expense_notes_coins.py does not fail: it replaces the first occurrence
and leaves the second untouched. -/
theorem C4_counterexample :
    add_expense_notes_coins_transform
        (expense_old_line.data ++ '\n' :: expense_old_line.data)
      = expense_new_lines.data ++ '\n' :: expense_old_line.data := by
  decide

/-- C4 (amended): under the spec's patcher contract, a guard-free content
in which the locator occurs at least twice makes a single-match-policy
patch fail with `AmbiguousMatch`, the content unmodified; the script
instead patches blindly: whenever the first occurrence of the locator
starts after a prefix `pre` (no occurrence starting inside `pre`), the
script rewrites exactly that occurrence and keeps everything else,
including later occurrences. -/
theorem C4_ambiguous_match (p : Patch) (c pre post : List Char)
    (hq : p.expectUnique = true)
    (hg : containsSub p.guard c = false)
    (h2 : 2 ≤ countOcc p.locator c)
    (hpre : ∀ i, i < pre.length →
      expense_old_line.data.isPrefixOf
        ((pre ++ expense_old_line.data ++ post).drop i) = false) :
    applyPatch p c = { content := c, changed := false, error := some .ambiguousMatch }
      ∧ add_expense_notes_coins_transform (pre ++ expense_old_line.data ++ post)
          = pre ++ expense_new_lines.data ++ post := by
  constructor
  · have hl : containsSub p.locator c = true :=
      containsSub_of_countOcc_pos _ c (le_trans (by norm_num) h2)
    simp [applyPatch, hg, hl, hq, h2]
  · exact replaceFirst_at_first _ _ pre post hpre

/-- C4 (witness): the amended statement instantiated: the single-match
patch descriptor fails with `AmbiguousMatch` on the locator repeated
twice, while the script transformation rewrites the first occurrence. -/
theorem C4_ambiguous_match_witness :
    applyPatch add_expense_patch_unique
        (expense_old_line.data ++ '\n' :: expense_old_line.data)
        = { content := expense_old_line.data ++ '\n' :: expense_old_line.data
            changed := false
            error := some .ambiguousMatch }
      ∧ add_expense_notes_coins_transform
            ([] ++ expense_old_line.data ++ ('\n' :: expense_old_line.data))
          = [] ++ expense_new_lines.data ++ ('\n' :: expense_old_line.data) :=
  C4_ambiguous_match add_expense_patch_unique
    (expense_old_line.data ++ '\n' :: expense_old_line.data)
    [] ('\n' :: expense_old_line.data)
    (by decide) (by decide)
    (by
      show 2 ≤ countOcc expense_old_line.data
        (expense_old_line.data ++ '\n' :: expense_old_line.data)
      rw [countOcc_append_self _ _ (by decide), countOcc, if_neg (by decide),
          countOcc_self _ (by decide)])
    (fun i hi => absurd hi (by simp))

/-! ### Claim C5: round-trip, replacement present in the output -/

/-- C5: for content containing the locator `L` exactly once, the patched
result contains the replacement `R` as a substring, both for the
replace-all form (`str.replace(L, R)`) and for the first-occurrence form
(`str.replace(L, R, 1)`); in particular fix_db_path_production.py, on
content containing its `old_text` exactly once, writes output that
contains `new_text`. -/
theorem C5_round_trip (L R c d : List Char)
    (h1 : countOcc L c = 1)
    (h2 : countOcc fix_db_path_old_text.data d = 1) :
    R <:+: replaceAll L R c
      ∧ R <:+: replaceFirst L R c
      ∧ ∃ out, (fix_db_path_production_run d).written = some out
          ∧ fix_db_path_new_text.data <:+: out := by
  have hLne : L ≠ [] := by
    intro h0
    rw [h0, countOcc_nil_pat] at h1
    exact absurd h1 (by norm_num)
  have hc : containsSub L c = true :=
    containsSub_of_countOcc_pos L c (by omega)
  have hd : containsSub fix_db_path_old_text.data d = true :=
    containsSub_of_countOcc_pos _ d (by omega)
  refine ⟨rep_infix_replaceAll L R c hLne hc, rep_infix_replaceFirst L R c hc, ?_⟩
  refine ⟨replaceAll fix_db_path_old_text.data fix_db_path_new_text.data d, ?_, ?_⟩
  · simp [fix_db_path_production_run, hd]
  · exact rep_infix_replaceAll _ _ d (by decide) hd

/-- C5 (witness): the round-trip property instantiated on one-character
locator and replacement, and on content consisting of `old_text` itself. -/
theorem C5_round_trip_witness :
    ('b' :: []) <:+: replaceAll ('a' :: []) ('b' :: []) ('a' :: [])
      ∧ ('b' :: []) <:+: replaceFirst ('a' :: []) ('b' :: []) ('a' :: [])
      ∧ ∃ out, (fix_db_path_production_run fix_db_path_old_text.data).written = some out
          ∧ fix_db_path_new_text.data <:+: out :=
  C5_round_trip ('a' :: []) ('b' :: []) ('a' :: []) fix_db_path_old_text.data
    (countOcc_self ('a' :: []) (by decide))
    (countOcc_self fix_db_path_old_text.data (by decide))

/-- Helper for C8: when the stale line (the marker line found by the first
scan) contains the marker, the second scan succeeds immediately at its
starting index, provided that index is in range. -/
theorem secondScan_immediate (lines : List (List Char)) (staleLine : List Char) (i : Nat)
    (hst : containsSub km_marker.data staleLine = true) (hi : i < lines.length) :
    secondScan lines staleLine i = some i := by
  rw [secondScan, if_pos hi, if_pos (by simp [hst])]

/-! ### Claim C6: whole-file read/overwrite cycle -/

/-- C6 (counterexample): fix_db_path_production.py does not always write:
when its locator is absent (here: content `x`) the run performs no write at
all. -/
theorem C6_counterexample :
    (fix_db_path_production_run (("x").data)).written = none := by
  rw [fix_db_path_production_run, if_neg (by decide)]

/-- C6 (amended): every modelled script that writes writes the complete
transformed content (for the line-based scripts, the concatenation of the
output lines); add_expense_notes_coins, make_notes_optional,
fix_vehicle_lookup, add_km_db_methods and fix_expenses_table write on every
run, while fix_db_path_production writes exactly when its locator occurs
in the content (and remove_duplicates, see C7/C8, skips the write when its
marker is missing or its second scan fails). -/
theorem C6_write_behaviour :
    (∀ c : List Char, (add_expense_notes_coins_run c).written
        = some (add_expense_notes_coins_transform c))
      ∧ (∀ c : List Char, (make_notes_optional_run c).written
          = some (make_notes_optional_transform c))
      ∧ (∀ c : List Char, (fix_vehicle_lookup_run c).written
          = some (fix_vehicle_lookup_transform c))
      ∧ (∀ c : List Char, (add_km_db_methods_run c).written
          = some (add_km_db_methods_transform c))
      ∧ (∀ lines : List (List Char), (fix_expenses_table_run lines).written
          = some (fix_expenses_table_transform lines).flatten)
      ∧ (∀ c : List Char, (fix_db_path_production_run c).written
          = if containsSub fix_db_path_old_text.data c
            then some (replaceAll fix_db_path_old_text.data fix_db_path_new_text.data c)
            else none) := by
  refine ⟨fun c => rfl, fun c => rfl, fun c => rfl, fun c => rfl, fun lines => rfl, ?_⟩
  intro c
  by_cases h : containsSub fix_db_path_old_text.data c = true
  · rw [fix_db_path_production_run, if_pos h, if_pos h]
  · have h' : containsSub fix_db_path_old_text.data c = false := by simpa using h
    rw [fix_db_path_production_run, if_neg (by simp [h']), if_neg (by simp [h'])]

/-! ### Claim C7: uniform failure termination -/

/-- C7 (counterexample): exit status does distinguish failure from success
for remove_duplicates.py: a run on a file without the KM marker exits with
status 1, while a run that removes a duplicate section exits with status
0. -/
theorem C7_counterexample :
    (remove_duplicates_run [("x").data]).exitCode = 1
      ∧ (remove_duplicates_run
          [("// KM TRACKING OPERATIONS\n").data, ("y\n").data]).exitCode = 0 := by
  constructor
  · have hf : findFirstIdx (fun l => containsSub km_marker.data l) [("x").data]
        = none := by decide
    simp only [remove_duplicates_run, hf]
  · have hf : findFirstIdx (fun l => containsSub km_marker.data l)
        [("// KM TRACKING OPERATIONS\n").data, ("y\n").data] = some 0 := by decide
    have hs : secondScan [("// KM TRACKING OPERATIONS\n").data, ("y\n").data]
        (([("// KM TRACKING OPERATIONS\n").data, ("y\n").data]).getD 0 []) (0 + 1)
        = some 1 :=
      secondScan_immediate _ _ _ (by decide) (by norm_num)
    simp only [remove_duplicates_run, hf, hs]

/-- C7 (amended): all modelled scripts except remove_duplicates.py exit
with status 0 on every input, whether or not the patch target was found;
remove_duplicates.py exits with status 1 exactly when no line contains the
KM marker, and 0 otherwise. -/
theorem C7_exit_codes :
    (∀ c : List Char, (add_expense_notes_coins_run c).exitCode = 0)
      ∧ (∀ c : List Char, (fix_db_path_production_run c).exitCode = 0)
      ∧ (∀ c : List Char, (make_notes_optional_run c).exitCode = 0)
      ∧ (∀ c : List Char, (fix_vehicle_lookup_run c).exitCode = 0)
      ∧ (∀ c : List Char, (add_km_db_methods_run c).exitCode = 0)
      ∧ (∀ lines : List (List Char), (fix_expenses_table_run lines).exitCode = 0)
      ∧ (∀ lines : List (List Char), (remove_duplicates_run lines).exitCode
          = if (findFirstIdx (fun l => containsSub km_marker.data l) lines).isSome
            then 0 else 1) := by
  refine ⟨fun c => rfl, ?_, fun c => rfl, fun c => rfl, fun c => rfl, fun lines => rfl, ?_⟩
  · intro c
    rw [fix_db_path_production_run]
    by_cases h : containsSub fix_db_path_old_text.data c = true
    · rw [if_pos h]
    · rw [if_neg (by simp [Bool.not_eq_true] at h; simp [h])]
  · intro lines
    rcases hf : findFirstIdx (fun l => containsSub km_marker.data l) lines with _ | first
    · simp only [remove_duplicates_run, hf, Option.isSome_none, if_false]
      rfl
    · simp only [remove_duplicates_run, hf, Option.isSome_some, if_true]
      rcases hs : secondScan lines (lines.getD first []) (first + 1) with _ | second
      · rfl
      · rfl

/-! ### Claim C8: remove_duplicates.py truncates after the first marker -/

/-- C8: for every input whose lines contain the KM marker first at index
`i`, with at least one line after it, the second scan of
remove_duplicates.py succeeds immediately at `i + 1` (its condition tests
the stale `line` variable, which is the marker line itself), so the script
writes back exactly lines `0..i`, appending a closing-brace line when line
`i` does not strip to a brace, and exits 0 — even when no duplicate
actually exists. -/
theorem C8_truncates_after_first_marker (lines : List (List Char)) (i : Nat)
    (hfind : findFirstIdx (fun l => containsSub km_marker.data l) lines = some i)
    (hlt : i + 1 < lines.length) :
    secondScan lines (lines.getD i []) (i + 1) = some (i + 1)
      ∧ (remove_duplicates_run lines).written
          = some ((if pyStrip (lines.getD i []) = ('\x7d' :: [])
                   then lines.take (i + 1)
                   else lines.take (i + 1) ++ [('\x7d' :: '\n' :: [])]).flatten)
      ∧ (remove_duplicates_run lines).exitCode = 0 := by
  obtain ⟨hilen, hpmark⟩ := findFirstIdx_some _ lines i hfind
  have hst : containsSub km_marker.data (lines.getD i []) = true := by
    simpa using hpmark
  have hsecond := secondScan_immediate lines (lines.getD i []) (i + 1) hst hlt
  refine ⟨hsecond, ?_, ?_⟩
  · simp only [remove_duplicates_run, hfind, hsecond]
    rw [getLastD_take lines i hilen]
  · simp only [remove_duplicates_run, hfind, hsecond]

/-- C8 (witness): the truncation behaviour on a concrete three-line file
whose marker line is at index 1: the whole third line is deleted and a
closing-brace line appended although no duplicate section exists. -/
theorem C8_truncates_witness :
    secondScan [("a\n").data, ("// KM TRACKING OPERATIONS\n").data, ("b\n").data]
        (([("a\n").data, ("// KM TRACKING OPERATIONS\n").data, ("b\n").data]).getD 1 []) 2
      = some 2
      ∧ (remove_duplicates_run
          [("a\n").data, ("// KM TRACKING OPERATIONS\n").data, ("b\n").data]).written
        = some ((if pyStrip (([("a\n").data, ("// KM TRACKING OPERATIONS\n").data,
                              ("b\n").data]).getD 1 []) = ('\x7d' :: [])
                 then ([("a\n").data, ("// KM TRACKING OPERATIONS\n").data,
                       ("b\n").data]).take 2
                 else ([("a\n").data, ("// KM TRACKING OPERATIONS\n").data,
                       ("b\n").data]).take 2 ++ [('\x7d' :: '\n' :: [])]).flatten)
      ∧ (remove_duplicates_run
          [("a\n").data, ("// KM TRACKING OPERATIONS\n").data, ("b\n").data]).exitCode
        = 0 :=
  C8_truncates_after_first_marker
    [("a\n").data, ("// KM TRACKING OPERATIONS\n").data, ("b\n").data] 1
    (by decide) (by norm_num)

/-! ### Claim C9: line-preservation frame property of fix_expenses_table.py -/

/-- Helper for C9: once `added_fields` is set, the rest of the loop copies
the remaining lines unchanged, whatever the table flag. -/
theorem fixExpensesLoop_added (lines : List (List Char)) :
    ∀ inTable : Bool, fixExpensesLoop lines inTable true = lines := by
  induction lines with
  | nil => intro inTable; rfl
  | cons l rest ih =>
    intro inTable
    simp [fixExpensesLoop, ih]

/-- Helper for C9: with `in_expenses_table` already set (and nothing added
yet), the loop inserts the two column lines after the first line containing
the description marker, and copies everything else. -/
theorem fixExpensesLoop_inTable (lines : List (List Char)) :
    fixExpensesLoop lines true false
      = match findFirstIdx (fun s => containsSub description_marker.data s) lines with
        | none => lines
        | some k => lines.take (k + 1)
            ++ [notes_field_line.data, coins_field_line.data] ++ lines.drop (k + 1) := by
  induction lines with
  | nil => rfl
  | cons l rest ih =>
    by_cases hd : containsSub description_marker.data l = true
    · simp [fixExpensesLoop, findFirstIdx, hd, fixExpensesLoop_added]
    · have hd' : containsSub description_marker.data l = false := by simpa using hd
      rcases hr : findFirstIdx (fun s => containsSub description_marker.data s) rest
        with _ | k
      · simp [fixExpensesLoop, findFirstIdx, hd', hr, ih]
      · simp [fixExpensesLoop, findFirstIdx, hd', hr, ih,
              List.take_succ_cons, List.drop_succ_cons]

/-- Helper for C9: from the initial flag state, the loop output equals the
input lines with the two column lines inserted right after the line at the
declarative insertion position, when one exists, and equals the input
otherwise. -/
theorem fixExpensesLoop_start (lines : List (List Char)) :
    fixExpensesLoop lines false false
      = match expensesInsertPos lines with
        | none => lines
        | some i => lines.take (i + 1)
            ++ [notes_field_line.data, coins_field_line.data] ++ lines.drop (i + 1) := by
  induction lines with
  | nil => rfl
  | cons l rest ih =>
    by_cases hcr : containsSub create_expenses_marker.data l = true
    · by_cases hd : containsSub description_marker.data l = true
      · simp [fixExpensesLoop, expensesInsertPos, hcr, hd, fixExpensesLoop_added]
      · have hd' : containsSub description_marker.data l = false := by simpa using hd
        rcases hr : findFirstIdx (fun s => containsSub description_marker.data s) rest
          with _ | k
        · simp [fixExpensesLoop, expensesInsertPos, hcr, hd', hr, fixExpensesLoop_inTable]
        · simp [fixExpensesLoop, expensesInsertPos, hcr, hd', hr, fixExpensesLoop_inTable,
                List.take_succ_cons, List.drop_succ_cons]
    · have hcr' : containsSub create_expenses_marker.data l = false := by simpa using hcr
      rcases hi : expensesInsertPos rest with _ | k
      · simp [fixExpensesLoop, expensesInsertPos, hcr', hi, ih]
      · simp [fixExpensesLoop, expensesInsertPos, hcr', hi, ih,
              List.take_succ_cons, List.drop_succ_cons]

/-- C9: the output of fix_expenses_table.py is the input lines with at most
one insertion: when some line contains the description marker at or after
the first line containing the CREATE-TABLE marker, the two CRLF-terminated
column lines are inserted immediately after the first such line; otherwise
the output is identical to the input.  The run always writes the
concatenation of the output lines. -/
theorem C9_insertion_frame (lines : List (List Char)) :
    fix_expenses_table_transform lines
      = (match expensesInsertPos lines with
         | none => lines
         | some i => lines.take (i + 1)
             ++ [notes_field_line.data, coins_field_line.data] ++ lines.drop (i + 1))
      ∧ (fix_expenses_table_run lines).written
          = some (fix_expenses_table_transform lines).flatten :=
  ⟨fixExpensesLoop_start lines, rfl⟩

/-! ### A model of the `re.sub` / `re.findall` calls of the regex scripts

Six scripts use Python's `re` module.  Every pattern they use is built from
literal text, capturing groups, and greedy `+` or `*` of a single character
class (`\d+`, `\s+`, `\s*`, `[^)]+`, `[^\x7d]+`, `[^\x27]+`, `[^,\n]+`);
there is no alternation and no nesting of quantifiers.  We model exactly
this fragment, with Python's backtracking semantics: a quantifier first
consumes the maximal run of its class and gives characters back one at a
time until the rest of the pattern matches.  `re.DOTALL`, passed by two of
the scripts, only changes the meaning of `.`, which no pattern uses, so it
needs no model.  A pattern is a flat list of items; a capturing group is a
pair of `openG`/`closeG` markers around its content (the patterns in this
repository never nest groups). -/

inductive RItem where
  | lit (s : List Char)
  | plus (p : Char → Bool)
  | star (p : Char → Bool)
  | openG
  | closeG

mutual

/-- Match a pattern against the beginning of `s`.  Returns the number of
characters consumed and the offsets (into `s`) at which each group marker
matched, in pattern order. -/
def matchR : List RItem → List Char → Option (Nat × List Nat)
  | [], _s => some (0, [])
  | .lit l :: rest, s =>
    if l.isPrefixOf s then
      (matchR rest (s.drop l.length)).map fun r => (l.length + r.1, r.2.map (l.length + ·))
    else none
  | .plus p :: rest, s => tryFrom rest s 1 ((s.takeWhile p).length)
  | .star p :: rest, s => tryFrom rest s 0 ((s.takeWhile p).length)
  | .openG :: rest, s => (matchR rest s).map fun r => (r.1, 0 :: r.2)
  | .closeG :: rest, s => (matchR rest s).map fun r => (r.1, 0 :: r.2)
termination_by items _s => (items.length, 0)

/-- Backtracking for a greedy quantifier: try consuming `k` characters of
the class run, and on failure of the rest of the pattern give one back,
stopping below `lo` (1 for `+`, 0 for `*`). -/
def tryFrom (rest : List RItem) (s : List Char) (lo : Nat) : Nat → Option (Nat × List Nat)
  | k =>
    if k < lo then none
    else
      match matchR rest (s.drop k) with
      | some r => some (k + r.1, r.2.map (k + ·))
      | none => if k = 0 then none else tryFrom rest s lo (k - 1)
termination_by k => (rest.length, k + 1)

end

end Bakeries
